import Mathlib

/-!
Verification of the multi-step LSTM system-load forecasting subsystem
(`ml_models/scripts/train_lstm.py` and `ml_models/scripts/demo_predict_retrain.py`)
against its natural-language specification.

Numeric values are embedded as rationals (`ℚ`); feature vectors are lists of
rationals.  The nonlinear activations of the recurrent cell (sigmoid, tanh) are
not rational-valued, so the embedding takes them as explicit function
parameters — every theorem below quantifies over them, and concrete witnesses
instantiate them with computable functions.
-/

namespace SystemLoadAI

abbrev Vec := List ℚ
abbrev Mat := List Vec

/-- `calculate_network_load_score` from `train_lstm.py` (lines 25–46):
a four-segment piecewise-linear score over total network throughput with
thresholds 128 / 1280 / 6400 / 12800 KB/s, clamped to `[0, 100]`. -/
def calculate_network_load_score (t : ℚ) : ℚ :=
  min (max (
    if t ≤ 128 then (t / 128) * 25
    else if t ≤ 1280 then 25 + ((t - 128) / (1280 - 128)) * 25
    else if t ≤ 6400 then 50 + ((t - 1280) / (6400 - 1280)) * 25
    else if t ≤ 12800 then 75 + ((t - 6400) / (12800 - 6400)) * 25
    else 100) 0) 100

/-- `calculate_disk_load_score` from `train_lstm.py` (lines 48–69):
same shape with thresholds 1024 / 10240 / 51200 / 102400 KB/s. -/
def calculate_disk_load_score (t : ℚ) : ℚ :=
  min (max (
    if t ≤ 1024 then (t / 1024) * 25
    else if t ≤ 10240 then 25 + ((t - 1024) / (10240 - 1024)) * 25
    else if t ≤ 51200 then 50 + ((t - 10240) / (51200 - 10240)) * 25
    else if t ≤ 102400 then 75 + ((t - 51200) / (102400 - 51200)) * 25
    else 100) 0) 100

/-- The unclamped network score, used to factor the monotonicity proofs. -/
def netRaw (t : ℚ) : ℚ :=
  if t ≤ 128 then (t / 128) * 25
  else if t ≤ 1280 then 25 + ((t - 128) / (1280 - 128)) * 25
  else if t ≤ 6400 then 50 + ((t - 1280) / (6400 - 1280)) * 25
  else if t ≤ 12800 then 75 + ((t - 6400) / (12800 - 6400)) * 25
  else 100

/-- The unclamped disk score. -/
def diskRaw (t : ℚ) : ℚ :=
  if t ≤ 1024 then (t / 1024) * 25
  else if t ≤ 10240 then 25 + ((t - 1024) / (10240 - 1024)) * 25
  else if t ≤ 51200 then 50 + ((t - 10240) / (51200 - 10240)) * 25
  else if t ≤ 102400 then 75 + ((t - 51200) / (102400 - 51200)) * 25
  else 100

/-- One row of the raw telemetry table consumed by `MultistepDataset.__init__`
and `prepare_input_data_for_prediction`.  The two derived total-throughput
columns that those functions assign into the DataFrame are `Option` fields,
`none` until assigned. -/
structure Row where
  cpuUsage : ℚ
  memUsage : ℚ
  memCapacity : ℚ
  diskRead : ℚ
  diskWrite : ℚ
  netRx : ℚ
  netTx : ℚ
  totalNet : Option ℚ := none
  totalDisk : Option ℚ := none
deriving DecidableEq

/-- The in-place column assignments at the top of `MultistepDataset.__init__`
(train_lstm.py lines 77–78) and of `prepare_input_data_for_prediction`
(demo_predict_retrain.py lines 31–32): store rx+tx and read+write totals
into the table. -/
def addDerivedColumns (df : List Row) : List Row :=
  df.map (fun r =>
    { r with
      totalNet := some (r.netRx + r.netTx)
      totalDisk := some (r.diskRead + r.diskWrite) })

/-- One feature vector `[cpu_pct, memory_pct, network_score, disk_score]`
(the `torch.cat` order of train_lstm.py line 94), computed from a row that
already carries the derived total columns. -/
def featureRow (r : Row) : Vec :=
  [r.cpuUsage,
   r.memUsage / r.memCapacity * 100,
   calculate_network_load_score ((r.totalNet).getD 0),
   calculate_disk_load_score ((r.totalDisk).getD 0)]

/-- `MultistepDataset.__init__` (train_lstm.py lines 75–97): mutates the input
table by adding the two total columns, then derives `self.data`, the `(N, 4)`
feature matrix.  Returned as the pair (table after the call, feature matrix). -/
def multistepDatasetInit (df : List Row) : List Row × List Vec :=
  let df2 := addDerivedColumns df
  (df2, df2.map featureRow)

/-- `MultistepDataset.__len__` (train_lstm.py lines 99–100):
`len(self.data) - self.input_window - self.pred_steps + 1`, a plain Python
integer subtraction with no clamping, embedded over `ℤ`. -/
def multistepLen (N w p : ℕ) : ℤ :=
  (N : ℤ) - (w : ℤ) - (p : ℤ) + 1

/-- The input slice `self.data[idx : idx + input_window]` of
`MultistepDataset.__getitem__` (train_lstm.py line 104). -/
def multistepGetX (data : List Vec) (w idx : ℕ) : List Vec :=
  (data.drop idx).take w

/-- The target slice `self.data[idx + input_window : idx + input_window +
pred_steps]` of `MultistepDataset.__getitem__` (train_lstm.py line 105). -/
def multistepGetY (data : List Vec) (w p idx : ℕ) : List Vec :=
  (data.drop (idx + w)).take p

/-- A zero feature vector, `torch.zeros(_, 4)` row. -/
def zeroVec4 : Vec := [0, 0, 0, 0]

/-- `prepare_input_data_for_prediction` (demo_predict_retrain.py lines 19–59):
derive the feature matrix from the table, then keep the last `input_window`
rows, left-padding with zero rows when fewer are available. -/
def prepare_input_data_for_prediction (df : List Row) (input_window : ℕ) :
    List Vec :=
  let data := (addDerivedColumns df).map featureRow
  if input_window ≤ data.length then
    data.drop (data.length - input_window)
  else
    List.replicate (input_window - data.length) zeroVec4 ++ data

/-! ### The recurrent sequence model (`MultistepLSTM`) -/

def dotProd (a b : Vec) : ℚ := (List.zipWith (· * ·) a b).sum

def matVec (m : Mat) (v : Vec) : Vec := m.map (fun row => dotProd row v)

def vecAdd (a b : Vec) : Vec := List.zipWith (· + ·) a b

def vecMul (a b : Vec) : Vec := List.zipWith (· * ·) a b

/-- Parameters of one `nn.LSTM` layer: `weight_ih`, `weight_hh`, `bias_ih`,
`bias_hh`, with the four gates (input, forget, cell, output) stacked in the
row dimension as in torch. -/
structure LSTMLayer where
  wih : Mat
  whh : Mat
  bih : Vec
  bhh : Vec
deriving DecidableEq

/-- One torch LSTM cell step.  `sg` and `th` are the sigmoid and tanh
activations, taken as parameters because the real functions are not
rational-valued. -/
def lstmCell (sg th : ℚ → ℚ) (hs : ℕ) (L : LSTMLayer) (x h c : Vec) :
    Vec × Vec :=
  let z := vecAdd (vecAdd (matVec L.wih x) L.bih)
                  (vecAdd (matVec L.whh h) L.bhh)
  let i := (z.take hs).map sg
  let f := ((z.drop hs).take hs).map sg
  let g := ((z.drop (2 * hs)).take hs).map th
  let o := ((z.drop (3 * hs)).take hs).map sg
  let c2 := vecAdd (vecMul f c) (vecMul i g)
  (vecMul o (c2.map th), c2)

/-- Run one LSTM layer across a timestep sequence from zero initial hidden
and cell state (torch's default), collecting the hidden output at every
timestep. -/
def lstmLayerSeq (sg th : ℚ → ℚ) (hs : ℕ) (L : LSTMLayer) (xs : List Vec) :
    List Vec :=
  (xs.foldl
    (fun (acc : Vec × Vec × List Vec) x =>
      let hc := lstmCell sg th hs L x acc.1 acc.2.1
      (hc.1, hc.2, acc.2.2 ++ [hc.1]))
    (List.replicate hs 0, List.replicate hs 0, [])).2.2

/-- Inter-layer dropout in training mode: multiply every hidden unit by a
mask factor drawn from the RNG stream `maskf` (which already carries the
`1/(1-p)` scaling torch applies). -/
def applyDropoutMask (maskf : ℕ → ℕ → ℚ) (outs : List Vec) : List Vec :=
  outs.mapIdx (fun t v => v.mapIdx (fun u q => maskf t u * q))

/-- The stacked LSTM: run layers in order; on the output of every layer but
the last, apply dropout when in training mode and the dropout rate is
nonzero (torch semantics of `nn.LSTM(..., dropout=rate)`). -/
def lstmStack (sg th : ℚ → ℚ) (hs : ℕ) (training : Bool) (rate : ℚ)
    (maskf : ℕ → ℕ → ℕ → ℚ) : ℕ → List LSTMLayer → List Vec → List Vec
  | _, [], xs => xs
  | li, L :: rest, xs =>
    let outs := lstmLayerSeq sg th hs L xs
    match rest with
    | [] => outs
    | _ :: _ =>
      let outs2 :=
        if training ∧ rate ≠ 0 then applyDropoutMask (maskf li) outs else outs
      lstmStack sg th hs training rate maskf (li + 1) rest outs2

/-- `MultistepLSTM` (train_lstm.py lines 108–123): a stacked LSTM followed by
a linear head `fc : hidden → pred_steps * output_size`.  `training` is the
`nn.Module` mode flag toggled by `model.train()` / `model.eval()`. -/
structure MultistepLSTM where
  hiddenSize : ℕ
  predSteps : ℕ
  outputSize : ℕ
  layers : List LSTMLayer
  fcW : Mat
  fcB : Vec
  training : Bool := true
deriving DecidableEq

/-- The dropout rate `0.2 if num_layers > 1 else 0` of train_lstm.py
line 114. -/
def MultistepLSTM.dropoutRate (m : MultistepLSTM) : ℚ :=
  if 1 < m.layers.length then 1 / 5 else 0

/-- `out.view(-1, pred_steps, output_size)` on one instance: split the flat
head output into `predSteps` rows of `outputSize`. -/
def reshapeOut (predSteps outputSize : ℕ) (out : Vec) : List Vec :=
  (List.range predSteps).map (fun i => (out.drop (i * outputSize)).take outputSize)

/-- `MultistepLSTM.forward` (train_lstm.py lines 119–123) on one instance:
stacked LSTM, take the last timestep's hidden output, apply the linear head,
reshape to `(pred_steps, output_size)`. -/
def MultistepLSTM.forward (sg th : ℚ → ℚ) (maskf : ℕ → ℕ → ℕ → ℚ)
    (m : MultistepLSTM) (xs : List Vec) : List Vec :=
  let hseq := lstmStack sg th m.hiddenSize m.training m.dropoutRate maskf 0
    m.layers xs
  let hlast := hseq.getLastD (List.replicate m.hiddenSize 0)
  reshapeOut m.predSteps m.outputSize (vecAdd (matVec m.fcW hlast) m.fcB)

/-- `predict_future_metrics` (train_lstm.py lines 247–271): switch the model
to eval mode (`model.eval()`), run one forward pass under `no_grad`, and
return the `(pred_steps, 4)` prediction.  The batch unsqueeze/squeeze pair is
the identity in this single-instance embedding. -/
def predict_future_metrics (sg th : ℚ → ℚ) (maskf : ℕ → ℕ → ℕ → ℚ)
    (model : MultistepLSTM) (input_data : List Vec) : List Vec :=
  MultistepLSTM.forward sg th maskf { model with training := false } input_data

/-! ### Normalizer and the predict data flow (claim C1) -/

/-- Modelled from the spec: the Normalizer (spec §4.2) — per-feature min-max
parameters fit once per checkpoint.  No scaler is ever constructed or applied
in the reference predict path (`prepare_input_data_for_prediction` →
`predict_future_metrics`), so this component is absent from src and is
modelled from the spec's words. -/
structure Scaler where
  mins : Vec
  maxs : Vec
deriving DecidableEq

/-- Modelled from the spec: `Normalizer.transform` on one feature vector,
`(x - min) / (max - min)` per feature, with the degenerate `max == min`
column mapped to the constant 0 (spec §4.2). -/
def Scaler.transform1 (s : Scaler) (v : Vec) : Vec :=
  List.zipWith (fun x mm =>
      if mm.2 = mm.1 then 0 else (x - mm.1) / (mm.2 - mm.1))
    v (s.mins.zip s.maxs)

/-- Modelled from the spec: `Normalizer.inverse_transform` on one vector,
`y * (max - min) + min` per feature (spec §4.2). -/
def Scaler.inverse1 (s : Scaler) (v : Vec) : Vec :=
  List.zipWith (fun y mm => y * (mm.2 - mm.1) + mm.1) v (s.mins.zip s.maxs)

/-- The predict data flow as the code implements it
(demo_predict_retrain.py lines 90–95): feature derivation, then directly the
model forward pass — no scaler transform before and no inverse transform
after. -/
def predictFlowCode (sg th : ℚ → ℚ) (maskf : ℕ → ℕ → ℕ → ℚ)
    (model : MultistepLSTM) (df : List Row) (input_window : ℕ) : List Vec :=
  predict_future_metrics sg th maskf model
    (prepare_input_data_for_prediction df input_window)

/-- Modelled from the spec: the predict data flow of spec §2 and §4.8 —
recent window → FeatureEngineer → `Normalizer.transform` (reusing the fit
parameters of the checkpoint) → SequenceModel → `Normalizer.inverse_transform`
→ forecast. -/
def predictFlowSpec (sg th : ℚ → ℚ) (maskf : ℕ → ℕ → ℕ → ℚ) (s : Scaler)
    (model : MultistepLSTM) (df : List Row) (input_window : ℕ) : List Vec :=
  ((predict_future_metrics sg th maskf model
      ((prepare_input_data_for_prediction df input_window).map
        s.transform1))).map s.inverse1

/-! ### Checkpoint loading (claims C3 and C4) -/

/-- The architecture tuple of `MultistepLSTM.__init__`:
`(input_size, hidden_size, num_layers, pred_steps, output_size)`. -/
structure Arch where
  inputSize : ℕ
  hiddenSize : ℕ
  numLayers : ℕ
  predSteps : ℕ
  outputSize : ℕ
deriving DecidableEq

/-- The tensor shapes of the state dict of a `MultistepLSTM` built with a
given architecture: per layer `weight_ih_l{k}` is `(4*hidden, in)` with
`in = input_size` for layer 0 and `hidden` above, `weight_hh_l{k}` is
`(4*hidden, hidden)`, both biases are `(4*hidden)`; the head is
`(pred_steps*output_size, hidden)` with bias `(pred_steps*output_size)`. -/
def archShapes (a : Arch) : List (List ℕ) :=
  ((List.range a.numLayers).map (fun l =>
    [[4 * a.hiddenSize, if l = 0 then a.inputSize else a.hiddenSize],
     [4 * a.hiddenSize, a.hiddenSize],
     [4 * a.hiddenSize],
     [4 * a.hiddenSize]])).flatten
  ++ [[a.predSteps * a.outputSize, a.hiddenSize],
      [a.predSteps * a.outputSize]]

/-- The learned parameter state persisted by `torch.save(model.state_dict())`
and restored by `load_state_dict`. -/
structure StateDict where
  layers : List LSTMLayer
  fcW : Mat
  fcB : Vec
deriving DecidableEq

inductive LoadError where
  | architectureMismatch
  | ioError
deriving DecidableEq

/-- The checkpoint file at `model_path`: either absent is modelled by
`Option.none` at the call sites, unreadable by `torch.load` (`corrupt`), or a
state dict together with the architecture it was saved from. -/
inductive CheckpointFile where
  | corrupt
  | valid (savedArch : Arch) (sd : StateDict)
deriving DecidableEq

/-- Models torch's strict `Module.load_state_dict`: restoring succeeds and
copies the stored parameters wholesale exactly when every stored tensor shape
matches the freshly constructed model's shapes; on any shape mismatch it
raises (here `LoadError.architectureMismatch`) and copies nothing. -/
def load_state_dict (savedArch : Arch) (sd : StateDict) (requested : Arch) :
    Except LoadError StateDict :=
  if archShapes savedArch = archShapes requested then .ok sd
  else .error .architectureMismatch

/-- `load_model_for_prediction` (train_lstm.py lines 361–385): build a model
of the requested architecture, `torch.load` + `load_state_dict`; any failure
(missing file, unreadable file, shape mismatch) is caught and `None` is
returned. -/
def load_model_for_prediction (file : Option CheckpointFile)
    (requested : Arch) : Option StateDict :=
  match file with
  | none => none
  | some .corrupt => none
  | some (.valid a sd) =>
    match load_state_dict a sd requested with
    | .ok p => some p
    | .error _ => none

/-- The load-or-create branch of `retrain_model_with_new_data`
(train_lstm.py lines 319–335): if the checkpoint file exists, try to load it
into a model of the configured architecture; on any load failure, or when the
file is missing, fall back to the freshly initialized parameters `fresh`
(random initialization is environmental, so the fresh state is a parameter).
The function is total: no load failure propagates. -/
def retrainLoadOrCreate (file : Option CheckpointFile) (requested : Arch)
    (fresh : StateDict) : StateDict :=
  match file with
  | none => fresh
  | some .corrupt => fresh
  | some (.valid a sd) =>
    match load_state_dict a sd requested with
    | .ok p => p
    | .error _ => fresh

/-! ### Training loop (claims C8 and C3) -/

/-- A batch: the list of `(window, target)` instances grouped by the
DataLoader. -/
abbrev Batch := List (List Vec × List Vec)

def sqErrVec (a b : Vec) : ℚ :=
  (List.zipWith (fun x y => (x - y) ^ 2) a b).sum

def sqErrMat (a b : List Vec) : ℚ :=
  (List.zipWith sqErrVec a b).sum

def numel (a : List Vec) : ℕ := (a.map List.length).sum

/-- `nn.MSELoss()` applied to one batch: the mean over every element of the
batch of the squared difference between the model output and the target. -/
def batchLoss (sg th : ℚ → ℚ) (maskf : ℕ → ℕ → ℕ → ℚ) (m : MultistepLSTM)
    (b : Batch) : ℚ :=
  ((b.map (fun inst =>
      sqErrMat (MultistepLSTM.forward sg th maskf m inst.1) inst.2)).sum) /
    ((b.map (fun inst => numel inst.2)).sum : ℕ)

/-- `train_epoch` (train_lstm.py lines 209–227): `model.train()`, then one
pass over the batches; for each batch the loss is computed with the current
parameters and then one optimizer step is taken.  Backpropagation and the
Adam update are abstracted as the `step` parameter; the loss bookkeeping
(`total_loss += loss.item() * batch_size`, divided by the dataset size at the
end) is concrete. -/
def train_epoch (sg th : ℚ → ℚ) (maskf : ℕ → ℕ → ℕ → ℚ)
    (step : MultistepLSTM → Batch → MultistepLSTM) (m : MultistepLSTM)
    (batches : List Batch) (nTotal : ℕ) : MultistepLSTM × ℚ :=
  let r := batches.foldl
    (fun (acc : MultistepLSTM × ℚ) b =>
      (step acc.1 b,
       acc.2 + batchLoss sg th maskf acc.1 b * (b.length : ℕ)))
    ({ m with training := true }, 0)
  (r.1, r.2 / (nTotal : ℕ))

/-- `eval_epoch` (train_lstm.py lines 229–245): `model.eval()`, one pass over
the validation batches under `torch.no_grad()` accumulating the same loss;
no optimizer exists here and no parameter is written, so the function returns
only the loss. -/
def eval_epoch (sg th : ℚ → ℚ) (maskf : ℕ → ℕ → ℕ → ℚ) (m : MultistepLSTM)
    (batches : List Batch) (nTotal : ℕ) : ℚ :=
  (batches.foldl
    (fun t b =>
      t + batchLoss sg th maskf { m with training := false } b *
        (b.length : ℕ))
    0) / (nTotal : ℕ)

/-- The epoch loop of `retrain_model_with_new_data` (train_lstm.py lines
341–353): for each of the `epochs` epochs, one training epoch followed by one
validation epoch, appending one loss value to each history. -/
def retrainLoop (sg th : ℚ → ℚ) (maskf : ℕ → ℕ → ℕ → ℚ)
    (step : MultistepLSTM → Batch → MultistepLSTM)
    (trainB valB : List Batch) (ntr nva : ℕ) (m0 : MultistepLSTM) :
    ℕ → MultistepLSTM × List ℚ × List ℚ
  | 0 => (m0, [], [])
  | e + 1 =>
    let prev := retrainLoop sg th maskf step trainB valB ntr nva m0 e
    let te := train_epoch sg th maskf step prev.1 trainB ntr
    let vl := eval_epoch sg th maskf te.1 valB nva
    (te.1, prev.2.1 ++ [te.2], prev.2.2 ++ [vl])

/-! ### Concrete sample values used in witnesses and counterexamples -/

/-- A projection dropping the two derived columns, used to state that feature
derivation modifies no original column. -/
def stripDerived (r : Row) : Row :=
  { r with totalNet := none, totalDisk := none }

/-- A concrete telemetry row (derived columns not yet assigned). -/
def sampleRow : Row :=
  { cpuUsage := 50, memUsage := 100, memCapacity := 200,
    diskRead := 3, diskWrite := 4, netRx := 5, netTx := 6 }

/-- `sampleRow` after the in-place total-column assignments. -/
def sampleRowDerived : Row :=
  { sampleRow with
    totalNet := some (sampleRow.netRx + sampleRow.netTx)
    totalDisk := some (sampleRow.diskRead + sampleRow.diskWrite) }

/-- An LSTM layer with all-zero parameters, hidden size 1, input size 4. -/
def zeroLayer : LSTMLayer :=
  { wih := [[0, 0, 0, 0], [0, 0, 0, 0], [0, 0, 0, 0], [0, 0, 0, 0]],
    whh := [[0], [0], [0], [0]],
    bih := [0, 0, 0, 0], bhh := [0, 0, 0, 0] }

/-- A concrete one-layer model with all-zero parameters:
`hidden_size = 1`, `pred_steps = 1`, `output_size = 4`. -/
def tinyModel : MultistepLSTM :=
  { hiddenSize := 1, predSteps := 1, outputSize := 4,
    layers := [zeroLayer],
    fcW := [[0], [0], [0], [0]], fcB := [0, 0, 0, 0],
    training := false }

/-- A fitted scaler with per-feature min 10 and max 20. -/
def sampleScaler : Scaler :=
  { mins := [10, 10, 10, 10], maxs := [20, 20, 20, 20] }

/-- The architecture the repository trains with (train_lstm.py line 322). -/
def arch64 : Arch :=
  { inputSize := 4, hiddenSize := 64, numLayers := 2, predSteps := 60,
    outputSize := 4 }

/-- The same architecture with `hidden_size = 32` (spec §8, scenario 5). -/
def arch32 : Arch :=
  { inputSize := 4, hiddenSize := 32, numLayers := 2, predSteps := 60,
    outputSize := 4 }

/-- A concrete stored parameter state. -/
def emptySD : StateDict := { layers := [], fcW := [], fcB := [] }

/-- A distinct freshly initialized parameter state. -/
def freshSD : StateDict := { layers := [], fcW := [], fcB := [1] }

/-- A trivial model for exercising the training loop. -/
def trivialModel : MultistepLSTM :=
  { hiddenSize := 1, predSteps := 1, outputSize := 4,
    layers := [], fcW := [], fcB := [], training := true }

/-! ### Load-score helper lemmas -/

lemma network_score_eq_clamp (t : ℚ) :
    calculate_network_load_score t = min (max (netRaw t) 0) 100 := by
  unfold calculate_network_load_score netRaw
  rfl

lemma disk_score_eq_clamp (t : ℚ) :
    calculate_disk_load_score t = min (max (diskRaw t) 0) 100 := by
  unfold calculate_disk_load_score diskRaw
  rfl

lemma netRaw_mono_lipschitz {x y : ℚ} (hxy : x ≤ y) :
    netRaw x ≤ netRaw y ∧ netRaw y - netRaw x ≤ (25 / 128) * (y - x) := by
  unfold netRaw
  split_ifs <;> constructor <;> linarith

lemma diskRaw_mono_lipschitz {x y : ℚ} (hxy : x ≤ y) :
    diskRaw x ≤ diskRaw y ∧ diskRaw y - diskRaw x ≤ (25 / 1024) * (y - x) := by
  unfold diskRaw
  split_ifs <;> constructor <;> linarith

/-- Clamping to `[0,100]` preserves order and is 1-Lipschitz. -/
lemma clamp_mono_lipschitz {a b : ℚ} (hab : a ≤ b) :
    min (max a 0) 100 ≤ min (max b 0) 100 ∧
      min (max b 0) 100 - min (max a 0) 100 ≤ b - a := by
  rcases le_total a 0 with h1 | h1 <;> rcases le_total b 0 with h2 | h2 <;>
    rcases le_total a 100 with h3 | h3 <;> rcases le_total b 100 with h4 | h4 <;>
    simp [max_def, min_def] <;> split_ifs <;> constructor <;> linarith

lemma network_score_mono {x y : ℚ} (hxy : x ≤ y) :
    calculate_network_load_score x ≤ calculate_network_load_score y := by
  rw [network_score_eq_clamp, network_score_eq_clamp]
  exact (clamp_mono_lipschitz (netRaw_mono_lipschitz hxy).1).1

lemma disk_score_mono {x y : ℚ} (hxy : x ≤ y) :
    calculate_disk_load_score x ≤ calculate_disk_load_score y := by
  rw [disk_score_eq_clamp, disk_score_eq_clamp]
  exact (clamp_mono_lipschitz (diskRaw_mono_lipschitz hxy).1).1

lemma network_score_lipschitz (x y : ℚ) :
    |calculate_network_load_score x - calculate_network_load_score y| ≤
      (25 / 128) * |x - y| := by
  rcases le_total x y with h | h
  · have h1 := netRaw_mono_lipschitz h
    have h2 := clamp_mono_lipschitz h1.1
    rw [network_score_eq_clamp, network_score_eq_clamp]
    rw [abs_sub_comm, abs_sub_comm x y, abs_of_nonneg (by linarith [h2.1]),
      abs_of_nonneg (by linarith)]
    calc min (max (netRaw y) 0) 100 - min (max (netRaw x) 0) 100
        ≤ netRaw y - netRaw x := h2.2
      _ ≤ (25 / 128) * (y - x) := h1.2
  · have h1 := netRaw_mono_lipschitz h
    have h2 := clamp_mono_lipschitz h1.1
    rw [network_score_eq_clamp, network_score_eq_clamp]
    rw [abs_of_nonneg (by linarith [h2.1]), abs_of_nonneg (by linarith)]
    calc min (max (netRaw x) 0) 100 - min (max (netRaw y) 0) 100
        ≤ netRaw x - netRaw y := h2.2
      _ ≤ (25 / 128) * (x - y) := h1.2

lemma disk_score_lipschitz (x y : ℚ) :
    |calculate_disk_load_score x - calculate_disk_load_score y| ≤
      (25 / 1024) * |x - y| := by
  rcases le_total x y with h | h
  · have h1 := diskRaw_mono_lipschitz h
    have h2 := clamp_mono_lipschitz h1.1
    rw [disk_score_eq_clamp, disk_score_eq_clamp]
    rw [abs_sub_comm, abs_sub_comm x y, abs_of_nonneg (by linarith [h2.1]),
      abs_of_nonneg (by linarith)]
    calc min (max (diskRaw y) 0) 100 - min (max (diskRaw x) 0) 100
        ≤ diskRaw y - diskRaw x := h2.2
      _ ≤ (25 / 1024) * (y - x) := h1.2
  · have h1 := diskRaw_mono_lipschitz h
    have h2 := clamp_mono_lipschitz h1.1
    rw [disk_score_eq_clamp, disk_score_eq_clamp]
    rw [abs_of_nonneg (by linarith [h2.1]), abs_of_nonneg (by linarith)]
    calc min (max (diskRaw x) 0) 100 - min (max (diskRaw y) 0) 100
        ≤ diskRaw x - diskRaw y := h2.2
      _ ≤ (25 / 1024) * (x - y) := h1.2

/-! ### Claim theorems -/

/-- C5: both load-score functions are monotonic non-decreasing, bounded to
`[0,100]`, and continuous (ε-δ over ℚ) at every segment boundary of their
respective threshold sets. -/
theorem c5_load_score_monotone_bounded_continuous :
    (∀ x y : ℚ, x ≤ y →
      calculate_network_load_score x ≤ calculate_network_load_score y) ∧
    (∀ x : ℚ, 0 ≤ calculate_network_load_score x ∧
      calculate_network_load_score x ≤ 100) ∧
    (∀ b : ℚ, b ∈ ([128, 1280, 6400, 12800] : List ℚ) →
      ∀ ε : ℚ, 0 < ε → ∃ δ : ℚ, 0 < δ ∧ ∀ x : ℚ, |x - b| < δ →
        |calculate_network_load_score x - calculate_network_load_score b| < ε) ∧
    (∀ x y : ℚ, x ≤ y →
      calculate_disk_load_score x ≤ calculate_disk_load_score y) ∧
    (∀ x : ℚ, 0 ≤ calculate_disk_load_score x ∧
      calculate_disk_load_score x ≤ 100) ∧
    (∀ b : ℚ, b ∈ ([1024, 10240, 51200, 102400] : List ℚ) →
      ∀ ε : ℚ, 0 < ε → ∃ δ : ℚ, 0 < δ ∧ ∀ x : ℚ, |x - b| < δ →
        |calculate_disk_load_score x - calculate_disk_load_score b| < ε) := by
  refine ⟨fun x y h => network_score_mono h, fun x => ?_, ?_,
    fun x y h => disk_score_mono h, fun x => ?_, ?_⟩
  · rw [network_score_eq_clamp]
    exact ⟨le_min (le_max_right _ _) (by norm_num), min_le_right _ _⟩
  · intro b _ ε hε
    refine ⟨(128 / 25) * ε, by linarith, fun x hx => ?_⟩
    calc |calculate_network_load_score x - calculate_network_load_score b|
        ≤ (25 / 128) * |x - b| := network_score_lipschitz x b
      _ < ε := by linarith
  · rw [disk_score_eq_clamp]
    exact ⟨le_min (le_max_right _ _) (by norm_num), min_le_right _ _⟩
  · intro b _ ε hε
    refine ⟨(1024 / 25) * ε, by linarith, fun x hx => ?_⟩
    calc |calculate_disk_load_score x - calculate_disk_load_score b|
        ≤ (25 / 1024) * |x - b| := disk_score_lipschitz x b
      _ < ε := by linarith

/-- Witness for C5 at concrete inputs: monotonicity at 64 ≤ 128, bounds at
51200, and continuity at the boundary 128 with ε = 1. -/
theorem c5_load_score_witness :
    calculate_network_load_score 64 ≤ calculate_network_load_score 128 ∧
    (0 ≤ calculate_disk_load_score 51200 ∧
      calculate_disk_load_score 51200 ≤ 100) ∧
    (∃ δ : ℚ, 0 < δ ∧ ∀ x : ℚ, |x - 128| < δ →
      |calculate_network_load_score x - calculate_network_load_score 128| < 1) :=
  ⟨c5_load_score_monotone_bounded_continuous.1 64 128 (by decide),
   c5_load_score_monotone_bounded_continuous.2.2.2.2.1 51200,
   c5_load_score_monotone_bounded_continuous.2.2.1 128 (by decide) 1 (by decide)⟩

/-- C6: the concrete score scenarios of spec §8 — network 128 ↦ 25,
64 ↦ 12.5, 20000 ↦ 100; disk 1024 ↦ 25, 51200 ↦ 75, 200000 ↦ 100. -/
theorem c6_load_score_scenarios :
    calculate_network_load_score 128 = 25 ∧
    calculate_network_load_score 64 = 12.5 ∧
    calculate_network_load_score 20000 = 100 ∧
    calculate_disk_load_score 1024 = 25 ∧
    calculate_disk_load_score 51200 = 75 ∧
    calculate_disk_load_score 200000 = 100 := by
  norm_num [calculate_network_load_score, calculate_disk_load_score]

/-- Counterexample to C2 as stated: at `N = 0`, `w = 60`, `p = 60` the code's
`__len__` returns `-119`, not `max(0, N - w - p + 1) = 0`; a series shorter
than `w + p` does not yield an empty dataset. -/
theorem c2_counterexample :
    ¬ (multistepLen 0 60 60 = max 0 ((0 : ℤ) - 60 - 60 + 1)) := by
  decide

/-- C2 (amended): the dataset length is the unclamped integer
`N - w - p + 1`; it agrees with `max(0, N - w - p + 1)` exactly on
`N ≥ w + p - 1`, is negative when `N < w + p` (so Python's `len()` raises
rather than reporting an empty dataset), and every index below the length
yields a `(Window, Target)` pair of sizes exactly `w` and `p`. -/
theorem c2_dataset_length (N w p : ℕ) :
    multistepLen N w p = (N : ℤ) - w - p + 1 ∧
    (w + p ≤ N + 1 →
      multistepLen N w p = max 0 ((N : ℤ) - w - p + 1)) ∧
    (N + 1 < w + p → multistepLen N w p < 0) ∧
    (∀ (data : List Vec) (idx : ℕ), data.length = N →
      (idx : ℤ) < multistepLen N w p →
      (multistepGetX data w idx).length = w ∧
      (multistepGetY data w p idx).length = p) := by
  refine ⟨rfl, ?_, ?_, ?_⟩
  · intro h
    have h0 : (0 : ℤ) ≤ (N : ℤ) - w - p + 1 := by omega
    unfold multistepLen
    rw [max_eq_right h0]
  · intro h
    unfold multistepLen
    omega
  · intro data idx hN hidx
    unfold multistepLen at hidx
    constructor
    · simp only [multistepGetX, List.length_take, List.length_drop, hN]
      omega
    · simp only [multistepGetY, List.length_take, List.length_drop, hN]
      omega

/-- Witness for C2 (amended) at scenario 3 of spec §8: `N = 125`, `w = 60`,
`p = 60` give length 6, and index 0 yields slices of sizes 60 and 60. -/
theorem c2_dataset_length_witness :
    ((60 : ℕ) + 60 ≤ 125 + 1 ∧
      multistepLen 125 60 60 = max 0 ((125 : ℤ) - 60 - 60 + 1)) ∧
    ((List.replicate 125 zeroVec4).length = 125 ∧
      ((0 : ℕ) : ℤ) < multistepLen 125 60 60 ∧
      (multistepGetX (List.replicate 125 zeroVec4) 60 0).length = 60 ∧
      (multistepGetY (List.replicate 125 zeroVec4) 60 60 0).length = 60) :=
  ⟨⟨by decide, (c2_dataset_length 125 60 60).2.1 (by decide)⟩,
   by simp, by decide,
   (c2_dataset_length 125 60 60).2.2.2 (List.replicate 125 zeroVec4) 0
     (by simp) (by decide)⟩

/-- Counterexample to C7 as stated: `MultistepDataset.__init__` does not
leave the input table unchanged — on a concrete one-row table the table after
the call differs from the input, because the two total-throughput columns
were assigned into it. -/
theorem c7_counterexample :
    (multistepDatasetInit [sampleRow]).1 ≠ [sampleRow] := by
  decide

/-- C7 (amended): feature derivation adds exactly the two derived
total-throughput columns to the input table (an in-place mutation); it
modifies no original column, adds or removes no row, and the feature matrix
is a pure function of the resulting rows. -/
theorem c7_feature_derivation_frame (df : List Row) :
    (multistepDatasetInit df).1.map stripDerived = df.map stripDerived ∧
    (multistepDatasetInit df).1.length = df.length ∧
    (multistepDatasetInit df).2 = (multistepDatasetInit df).1.map featureRow ∧
    (∀ r ∈ (multistepDatasetInit df).1,
      r.totalNet = some (r.netRx + r.netTx) ∧
      r.totalDisk = some (r.diskRead + r.diskWrite)) := by
  refine ⟨?_, ?_, rfl, ?_⟩
  · simp only [multistepDatasetInit, addDerivedColumns, List.map_map]
    induction df with
    | nil => rfl
    | cons r t ih => simp [stripDerived]
  · simp [multistepDatasetInit, addDerivedColumns]
  · intro r hr
    simp only [multistepDatasetInit, addDerivedColumns, List.mem_map] at hr
    obtain ⟨r0, _, rfl⟩ := hr
    exact ⟨rfl, rfl⟩

/-- Witness for C7 (amended): the row derived from `sampleRow` is in the
mutated table and carries exactly the two derived totals. -/
theorem c7_feature_derivation_frame_witness :
    sampleRowDerived.totalNet =
      some (sampleRowDerived.netRx + sampleRowDerived.netTx) ∧
    sampleRowDerived.totalDisk =
      some (sampleRowDerived.diskRead + sampleRowDerived.diskWrite) :=
  (c7_feature_derivation_frame [sampleRow]).2.2.2 sampleRowDerived
    (List.Mem.head _)

/-- C10: `prepare_input_data_for_prediction` always returns exactly
`input_window` rows; with at least `input_window` feature rows available it
returns exactly the last `input_window` of them, and with fewer it left-pads
the deficit with all-zero rows, keeping all observed rows unchanged in the
most recent positions — never truncating and never raising. -/
theorem c10_prepare_input_padding (df : List Row) (w : ℕ) :
    (prepare_input_data_for_prediction df w).length = w ∧
    (w ≤ ((addDerivedColumns df).map featureRow).length →
      prepare_input_data_for_prediction df w =
        ((addDerivedColumns df).map featureRow).drop
          (((addDerivedColumns df).map featureRow).length - w)) ∧
    (((addDerivedColumns df).map featureRow).length < w →
      prepare_input_data_for_prediction df w =
        List.replicate (w - ((addDerivedColumns df).map featureRow).length)
            zeroVec4 ++ (addDerivedColumns df).map featureRow ∧
      (prepare_input_data_for_prediction df w).drop
          (w - ((addDerivedColumns df).map featureRow).length) =
        (addDerivedColumns df).map featureRow) := by
  set data := (addDerivedColumns df).map featureRow with hdata
  by_cases h : w ≤ data.length
  · refine ⟨?_, fun _ => ?_, fun hlt => absurd h (not_le.mpr hlt)⟩
    · simp only [prepare_input_data_for_prediction, ← hdata, if_pos h,
        List.length_drop]
      omega
    · simp only [prepare_input_data_for_prediction, ← hdata, if_pos h]
  · have h' : data.length < w := not_le.mp h
    refine ⟨?_, fun hle => absurd hle h, fun _ => ⟨?_, ?_⟩⟩
    · simp only [prepare_input_data_for_prediction, ← hdata, if_neg h,
        List.length_append, List.length_replicate]
      omega
    · simp only [prepare_input_data_for_prediction, ← hdata, if_neg h]
    · simp only [prepare_input_data_for_prediction, ← hdata, if_neg h]
      simp

/-- Witness for C10 at a one-row table with `input_window = 3`: the result
has 3 rows and its last row is the observed feature row. -/
theorem c10_prepare_input_padding_witness :
    (prepare_input_data_for_prediction [sampleRow] 3).length = 3 ∧
    (([sampleRow].map (fun r => r)).length = 1 ∧
      (prepare_input_data_for_prediction [sampleRow] 3).drop
          (3 - ((addDerivedColumns [sampleRow]).map featureRow).length) =
        (addDerivedColumns [sampleRow]).map featureRow) :=
  ⟨(c10_prepare_input_padding [sampleRow] 3).1,
   by decide,
   ((c10_prepare_input_padding [sampleRow] 3).2.2 (by decide)).2⟩

/-- In eval mode the stacked LSTM never consults the dropout RNG stream. -/
lemma lstmStack_eval_mask_irrel (sg th : ℚ → ℚ) (hs : ℕ) (rate : ℚ)
    (maskf1 maskf2 : ℕ → ℕ → ℕ → ℚ) :
    ∀ (layers : List LSTMLayer) (li : ℕ) (xs : List Vec),
      lstmStack sg th hs false rate maskf1 li layers xs =
        lstmStack sg th hs false rate maskf2 li layers xs := by
  intro layers
  induction layers with
  | nil => intro li xs; rfl
  | cons L rest ih =>
    intro li xs
    cases rest with
    | nil => rfl
    | cons M rest2 => exact ih (li + 1) (lstmLayerSeq sg th hs L xs)

/-- C9: inference is deterministic — `predict_future_metrics` switches the
model to eval mode, so for a fixed parameter state and input window its
output does not depend on the dropout RNG stream: any two calls with the
same model and window agree. -/
theorem c9_deterministic_inference (sg th : ℚ → ℚ)
    (maskf1 maskf2 : ℕ → ℕ → ℕ → ℚ) (model : MultistepLSTM)
    (input : List Vec) :
    predict_future_metrics sg th maskf1 model input =
      predict_future_metrics sg th maskf2 model input := by
  unfold predict_future_metrics MultistepLSTM.forward
  simp only [lstmStack_eval_mask_irrel sg th _ _ maskf1 maskf2]

/-- C8: for every epoch count `E` (and non-empty train and validation batch
lists), the retraining epoch loop returns train- and validation-loss
histories of length exactly `E` (one value appended per epoch), and the
validation pass updates no parameter: the resulting model is independent of
the validation data. -/
theorem c8_training_loop (sg th : ℚ → ℚ) (maskf : ℕ → ℕ → ℕ → ℚ)
    (step : MultistepLSTM → Batch → MultistepLSTM)
    (trainB valB : List Batch) (ntr nva : ℕ) (m0 : MultistepLSTM) (E : ℕ)
    (htr : trainB ≠ []) (hva : valB ≠ []) :
    (retrainLoop sg th maskf step trainB valB ntr nva m0 E).2.1.length = E ∧
    (retrainLoop sg th maskf step trainB valB ntr nva m0 E).2.2.length = E ∧
    (∀ (valB' : List Batch) (nva' : ℕ),
      (retrainLoop sg th maskf step trainB valB' ntr nva' m0 E).1 =
        (retrainLoop sg th maskf step trainB valB ntr nva m0 E).1) := by
  induction E with
  | zero => exact ⟨rfl, rfl, fun _ _ => rfl⟩
  | succ e ih =>
    refine ⟨?_, ?_, ?_⟩
    · simp [retrainLoop, ih.1]
    · simp [retrainLoop, ih.2.1]
    · intro valB' nva'
      simp only [retrainLoop]
      rw [ih.2.2 valB' nva']

/-- Witness for C8 at `E = 2` with a trivial optimizer step and singleton
batch lists: both histories have length 2. -/
theorem c8_training_loop_witness :
    (([[]] : List Batch) ≠ [] ∧ ([[]] : List Batch) ≠ []) ∧
    ((retrainLoop (fun q => q) (fun q => q) (fun _ _ _ => 1) (fun m _ => m)
        [[]] [[]] 1 1 trivialModel 2).2.1.length = 2 ∧
      (retrainLoop (fun q => q) (fun q => q) (fun _ _ _ => 1) (fun m _ => m)
        [[]] [[]] 1 1 trivialModel 2).2.2.length = 2) :=
  ⟨⟨by decide, by decide⟩,
   (c8_training_loop (fun q => q) (fun q => q) (fun _ _ _ => 1)
      (fun m _ => m) [[]] [[]] 1 1 trivialModel 2 (by decide) (by decide)).1,
   (c8_training_loop (fun q => q) (fun q => q) (fun _ _ _ => 1)
      (fun m _ => m) [[]] [[]] 1 1 trivialModel 2 (by decide) (by decide)).2.1⟩

/-- C3: the load-or-create branch of `retrain_model_with_new_data` is total —
a missing checkpoint file, an unreadable one, and an architecture mismatch
all fall back to the freshly initialized parameters (cold start) without
propagating the failure, while a successful load continues from the stored
parameters (warm start). -/
theorem c3_retrain_warm_cold (file : Option CheckpointFile)
    (requested : Arch) (fresh : StateDict) :
    (file = none → retrainLoadOrCreate file requested fresh = fresh) ∧
    (file = some .corrupt →
      retrainLoadOrCreate file requested fresh = fresh) ∧
    (∀ (a : Arch) (sd : StateDict), file = some (.valid a sd) →
      (archShapes a = archShapes requested →
        retrainLoadOrCreate file requested fresh = sd) ∧
      (archShapes a ≠ archShapes requested →
        retrainLoadOrCreate file requested fresh = fresh)) := by
  refine ⟨fun h => ?_, fun h => ?_, fun a sd h => ⟨fun hm => ?_, fun hm => ?_⟩⟩
  · rw [h]; rfl
  · rw [h]; rfl
  · rw [h]; simp [retrainLoadOrCreate, load_state_dict, hm]
  · rw [h]; simp [retrainLoadOrCreate, load_state_dict, hm]

/-- Witness for C3: a corrupted checkpoint file and an architecture-mismatch
checkpoint both cold-start with the fresh parameters. -/
theorem c3_retrain_warm_cold_witness :
    retrainLoadOrCreate (some .corrupt) arch64 freshSD = freshSD ∧
    retrainLoadOrCreate (some (.valid arch64 emptySD)) arch32 freshSD =
      freshSD :=
  ⟨(c3_retrain_warm_cold (some .corrupt) arch64 freshSD).2.1 rfl,
   ((c3_retrain_warm_cold (some (.valid arch64 emptySD)) arch32
       freshSD).2.2 arch64 emptySD rfl).2 (by decide)⟩

/-- C4: loading a checkpoint whose stored tensor shapes differ from the
requested architecture fails with `ArchitectureMismatchError` and yields no
model; and whenever a load succeeds it returns the stored parameters
wholesale — never truncated, zero-padded, or partial. -/
theorem c4_architecture_mismatch (a : Arch) (sd : StateDict)
    (requested : Arch) :
    (archShapes a ≠ archShapes requested →
      load_state_dict a sd requested = .error .architectureMismatch ∧
      load_model_for_prediction (some (.valid a sd)) requested = none) ∧
    (∀ p : StateDict, load_state_dict a sd requested = .ok p → p = sd) := by
  constructor
  · intro h
    constructor
    · simp [load_state_dict, h]
    · simp [load_model_for_prediction, load_state_dict, h]
  · intro p hp
    by_cases hc : archShapes a = archShapes requested
    · simp [load_state_dict, hc] at hp
      exact hp.symm
    · simp [load_state_dict, hc] at hp

/-- Witness for C4 at scenario 5 of spec §8: a checkpoint saved with
`hidden_size = 64` loaded with `hidden_size = 32` mismatches and yields no
model. -/
theorem c4_architecture_mismatch_witness :
    archShapes arch64 ≠ archShapes arch32 ∧
    (load_state_dict arch64 emptySD arch32 = .error .architectureMismatch ∧
      load_model_for_prediction (some (.valid arch64 emptySD)) arch32 =
        none) :=
  ⟨by decide, (c4_architecture_mismatch arch64 emptySD arch32).1 (by decide)⟩

/-- With the all-zero `tinyModel`, the code's predict flow returns the raw
model output, the zero vector. -/
lemma predictFlowCode_tiny :
    predictFlowCode (fun q => q) (fun q => q) (fun _ _ _ => 1) tinyModel
      [sampleRow] 1 = [[0, 0, 0, 0]] := by
  norm_num [predictFlowCode, predict_future_metrics, MultistepLSTM.forward,
    MultistepLSTM.dropoutRate, lstmStack, lstmLayerSeq, lstmCell, tinyModel,
    zeroLayer, sampleRow, prepare_input_data_for_prediction,
    addDerivedColumns, featureRow, calculate_network_load_score,
    calculate_disk_load_score, reshapeOut, vecAdd, vecMul, matVec, dotProd,
    zeroVec4, List.range_succ]

/-- With the all-zero `tinyModel` and the fitted `sampleScaler`, the spec's
predict flow inverse-transforms the zero output back to the per-feature
minimum 10. -/
lemma predictFlowSpec_tiny :
    predictFlowSpec (fun q => q) (fun q => q) (fun _ _ _ => 1) sampleScaler
      tinyModel [sampleRow] 1 = [[10, 10, 10, 10]] := by
  norm_num [predictFlowSpec, predict_future_metrics, MultistepLSTM.forward,
    MultistepLSTM.dropoutRate, lstmStack, lstmLayerSeq, lstmCell, tinyModel,
    zeroLayer, sampleRow, sampleScaler, prepare_input_data_for_prediction,
    addDerivedColumns, featureRow, calculate_network_load_score,
    calculate_disk_load_score, reshapeOut, vecAdd, vecMul, matVec, dotProd,
    Scaler.transform1, Scaler.inverse1, zeroVec4, List.range_succ]

/-- C1 fails on the code: the reference predict flow applies no scaler. On a
concrete window, model, and fitted scaler, the value computed by the code
(`prepare_input_data_for_prediction` → `predict_future_metrics`, raw features
in, raw model output out) differs from the spec's flow, which transforms the
window with the checkpoint's fitted scaler before the forward pass and
inverse-transforms the output.  With the all-zero `tinyModel` the code
returns the zero vector while the spec flow returns the scaler minimum 10 in
every feature. -/
theorem c1_predict_flow_not_normalized :
    predictFlowCode (fun q => q) (fun q => q) (fun _ _ _ => 1) tinyModel
        [sampleRow] 1 ≠
      predictFlowSpec (fun q => q) (fun q => q) (fun _ _ _ => 1) sampleScaler
        tinyModel [sampleRow] 1 := by
  rw [predictFlowCode_tiny, predictFlowSpec_tiny]
  simp

end SystemLoadAI
